import Mathlib

/-!
Shallow embedding of the double-buffered 3-D Game of Life compute engine
(`src/GameOfLife3D.cpp`, `src/VulkanContext.cpp`) and its dispatch debugger
(`src/ComputeShaderDebugger.cpp`), together with theorems settling the
specification claims about them.

Modelling conventions:
* Vulkan object handles (`VkBuffer`, `VkImage`, ...) are opaque identities;
  they are modelled as `Nat`, with `0` standing for `VK_NULL_HANDLE`.
* `std::unordered_map` keyed by handle is modelled as an association list
  with last-write-wins insertion and key-filtering erase.
* `std::chrono::steady_clock::time_point` is modelled as an `Int`
  microsecond count; the millisecond duration computed by the debugger is
  the exact rational `(endTime - startTime) / 1000`.
* Device-side calls (`vkCmdDispatch`, `vkQueueSubmit`, ...) have no effect
  on host state; where the host code inspects (or ignores) their `VkResult`,
  the result is passed in explicitly as an `Int` (`0 = VK_SUCCESS`).
-/

namespace GolSpec

/-- Model of `VK_ACCESS_SHADER_WRITE_BIT` (Vulkan core, value `0x00000040`). -/
def VK_ACCESS_SHADER_WRITE_BIT : Nat := 64

/-- Model of `VK_SUCCESS` as an integer `VkResult` value. -/
def VK_SUCCESS : Int := 0

/-- Model of `VK_ERROR_DEVICE_LOST` as an integer `VkResult` value. -/
def VK_ERROR_DEVICE_LOST : Int := -4

/-- Model of `VkExtent3D`: width/height/depth of an image. -/
structure Extent3D where
  width : Nat
  height : Nat
  depth : Nat
  deriving DecidableEq, Repr

/-- Model of `ComputeShaderDebugger::BufferInfo`: metadata stored per tracked buffer. -/
structure BufferInfo where
  size : Nat
  name : String
  lastAccessTime : Int
  deriving DecidableEq, Repr

/-- Model of `ComputeShaderDebugger::ImageInfo`: metadata stored per tracked image. -/
structure ImageInfo where
  extent : Extent3D
  format : Nat
  name : String
  lastAccessTime : Int
  deriving DecidableEq, Repr

/-- Model of `ComputeDispatchInfo` (ComputeShaderDebugger.h): one dispatch record. -/
structure ComputeDispatchInfo where
  groupCountX : Nat
  groupCountY : Nat
  groupCountZ : Nat
  shaderName : String
  startTime : Int
  endTime : Int
  buffers : List Nat
  images : List Nat
  deriving DecidableEq, Repr

/-- Model of `VkMemoryBarrier`: the fields `validateMemoryBarrier` inspects. -/
structure MemoryBarrier where
  srcAccessMask : Nat
  dstAccessMask : Nat
  deriving DecidableEq, Repr

/-- Model of `VkBufferMemoryBarrier`: the fields `validateBufferMemoryBarrier` inspects
(`buffer = 0` models `VK_NULL_HANDLE`). -/
structure BufferMemoryBarrier where
  srcAccessMask : Nat
  dstAccessMask : Nat
  buffer : Nat
  offset : Nat
  size : Nat
  deriving DecidableEq, Repr

/-- Model of `VkImageMemoryBarrier`: the fields `validateImageMemoryBarrier` inspects. -/
structure ImageMemoryBarrier where
  srcAccessMask : Nat
  dstAccessMask : Nat
  image : Nat
  deriving DecidableEq, Repr

/-- Association-list insertion with `operator[]` (last-write-wins) semantics:
`map[key] = value` replaces any existing entry for the key. -/
def mapInsert {κ α : Type} [DecidableEq κ] (l : List (κ × α)) (key : κ)
    (val : α) : List (κ × α) :=
  if (l.filter (fun p => p.1 = key)).isEmpty then
    l ++ [(key, val)]
  else
    l.map (fun p => if p.1 = key then (key, val) else p)

/-- Association-list erase: `unordered_map::erase(key)` removes the entry for
the key (a no-op when absent). -/
def mapErase {κ α : Type} [DecidableEq κ] (l : List (κ × α)) (key : κ) :
    List (κ × α) :=
  l.filter (fun p => p.1 ≠ key)

/-- Association-list lookup with a default, modelling the value-initialised
entry `operator[]` creates for an absent key before it is updated. -/
def mapGetD {κ α : Type} [DecidableEq κ] (l : List (κ × α)) (key : κ)
    (d : α) : α :=
  match l.find? (fun p => p.1 = key) with
  | some p => p.2
  | none => d

/-- The host-visible state of a `ComputeShaderDebugger` instance: every data
member of the class that the modelled operations read or write. -/
structure DebuggerState where
  m_enabled : Bool
  m_trackedBuffers : List (Nat × BufferInfo)
  m_trackedImages : List (Nat × ImageInfo)
  m_dispatchHistory : List ComputeDispatchInfo
  m_currentDispatch : ComputeDispatchInfo
  m_inDispatch : Bool
  m_currentTimestampIndex : Nat
  m_timestampMarkers : List (Nat × String)
  m_errors : List String
  m_warnings : List String
  deriving DecidableEq, Repr

namespace ComputeShaderDebugger

/-- The zero-initialised `ComputeDispatchInfo` held in `m_currentDispatch`
before any dispatch begins. -/
def emptyDispatch : ComputeDispatchInfo :=
  { groupCountX := 0, groupCountY := 0, groupCountZ := 0, shaderName := "",
    startTime := 0, endTime := 0, buffers := [], images := [] }

/-- Model of `ComputeShaderDebugger::ComputeShaderDebugger`: the constructor state on
the successful path (query-pool creation succeeds, so no error is pushed):
enabled, nothing tracked, empty history and ledgers, timestamp index 0. -/
def construct : DebuggerState :=
  { m_enabled := true, m_trackedBuffers := [], m_trackedImages := [],
    m_dispatchHistory := [], m_currentDispatch := emptyDispatch,
    m_inDispatch := false, m_currentTimestampIndex := 0,
    m_timestampMarkers := [], m_errors := [], m_warnings := [] }

/-- Model of `ComputeShaderDebugger::setEnabled` (header, inline). -/
def setEnabled (s : DebuggerState) (enabled : Bool) : DebuggerState :=
  { s with m_enabled := enabled }

/-- Model of `ComputeShaderDebugger::trackBuffer`: when enabled, records/overwrites
metadata for the handle stamped with the current time; else a no-op. -/
def trackBuffer (s : DebuggerState) (buffer : Nat) (size : Nat) (name : String)
    (now : Int) : DebuggerState :=
  if !s.m_enabled then s
  else
    { s with m_trackedBuffers :=
        (mapInsert s.m_trackedBuffers buffer
          { size := size, name := name, lastAccessTime := now }) }

/-- Model of `ComputeShaderDebugger::trackImage`: when enabled, records/overwrites
metadata for the handle stamped with the current time; else a no-op. -/
def trackImage (s : DebuggerState) (image : Nat) (extent : Extent3D)
    (format : Nat) (name : String) (now : Int) : DebuggerState :=
  if !s.m_enabled then s
  else
    { s with m_trackedImages :=
        (mapInsert s.m_trackedImages image
          { extent := extent, format := format, name := name,
            lastAccessTime := now }) }

/-- Model of `ComputeShaderDebugger::untrackBuffer`: erases the handle from the
tracked-buffer table. The source performs the erase unconditionally — there
is no `m_enabled` guard in this function. -/
def untrackBuffer (s : DebuggerState) (buffer : Nat) : DebuggerState :=
  { s with m_trackedBuffers := mapErase s.m_trackedBuffers buffer }

/-- Model of `ComputeShaderDebugger::untrackImage`: erases the handle from the
tracked-image table. The source performs the erase unconditionally — there
is no `m_enabled` guard in this function. -/
def untrackImage (s : DebuggerState) (image : Nat) : DebuggerState :=
  { s with m_trackedImages := mapErase s.m_trackedImages image }

/-- Model of `ComputeShaderDebugger::beginDispatch`: when enabled, overwrites the
single in-flight dispatch slot and marks a dispatch open; else a no-op. -/
def beginDispatch (s : DebuggerState) (shaderName : String)
    (groupCountX groupCountY groupCountZ : Nat) (now : Int) : DebuggerState :=
  if !s.m_enabled then s
  else
    { s with
      m_currentDispatch :=
        { groupCountX := groupCountX, groupCountY := groupCountY,
          groupCountZ := groupCountZ, shaderName := shaderName,
          startTime := now, endTime := s.m_currentDispatch.endTime,
          buffers := [], images := [] },
      m_inDispatch := true }

/-- Model of `ComputeShaderDebugger::endDispatch`: when enabled and a dispatch is
open, stamps the end time, appends the record to the history, closes the
dispatch, and trims the history to 1000 entries by erasing the front. -/
def endDispatch (s : DebuggerState) (now : Int) : DebuggerState :=
  if !s.m_enabled || !s.m_inDispatch then s
  else
    let finished := { s.m_currentDispatch with endTime := now }
    let pushed := s.m_dispatchHistory ++ [finished]
    { s with
      m_currentDispatch := finished,
      m_dispatchHistory := if pushed.length > 1000 then pushed.drop 1 else pushed,
      m_inDispatch := false }

/-- Model of `ComputeShaderDebugger::insertTimestamp`: when enabled and the 1000-slot
query pool is not exhausted, records a marker and advances the index; the
device-side `vkCmdWriteTimestamp` has no host-visible effect. -/
def insertTimestamp (s : DebuggerState) (markerName : String) : DebuggerState :=
  if !s.m_enabled || s.m_currentTimestampIndex ≥ 1000 then s
  else
    { s with
      m_timestampMarkers :=
        s.m_timestampMarkers ++ [(s.m_currentTimestampIndex, markerName)],
      m_currentTimestampIndex := s.m_currentTimestampIndex + 1 }

/-- Model of `ComputeShaderDebugger::validateMemoryBarrier`: warns when both access
masks are zero; always returns `true` once enabled. -/
def validateMemoryBarrier (s : DebuggerState) (barrier : MemoryBarrier) :
    Bool × DebuggerState :=
  if !s.m_enabled then (true, s)
  else if barrier.srcAccessMask = 0 ∧ barrier.dstAccessMask = 0 then
    (true, { s with m_warnings := s.m_warnings ++
      ["Memory barrier has both srcAccessMask and dstAccessMask set to 0"] })
  else (true, s)

/-- Model of `ComputeShaderDebugger::validateBufferMemoryBarrier`: rejects a null
buffer handle (error, `false`); warns on a zero size (still `true`). -/
def validateBufferMemoryBarrier (s : DebuggerState)
    (barrier : BufferMemoryBarrier) : Bool × DebuggerState :=
  if !s.m_enabled then (true, s)
  else if barrier.buffer = 0 then
    (false, { s with m_errors := s.m_errors ++
      ["Buffer memory barrier has VK_NULL_HANDLE buffer"] })
  else if barrier.size = 0 then
    (true, { s with m_warnings := s.m_warnings ++
      ["Buffer memory barrier has size of 0"] })
  else (true, s)

/-- Model of `ComputeShaderDebugger::validateImageMemoryBarrier`: rejects a null
image handle (error, `false`). -/
def validateImageMemoryBarrier (s : DebuggerState)
    (barrier : ImageMemoryBarrier) : Bool × DebuggerState :=
  if !s.m_enabled then (true, s)
  else if barrier.image = 0 then
    (false, { s with m_errors := s.m_errors ++
      ["Image memory barrier has VK_NULL_HANDLE image"] })
  else (true, s)

/-- Model of `ComputeShaderDebugger::checkSynchronizationHazards`: warns on a
write-after-write pattern, errors on a zero stage mask on either side. -/
def checkSynchronizationHazards (s : DebuggerState)
    (srcStage dstStage srcAccess dstAccess : Nat) : DebuggerState :=
  if !s.m_enabled then s
  else
    let s₁ :=
      if Nat.land srcAccess VK_ACCESS_SHADER_WRITE_BIT ≠ 0 ∧
         Nat.land dstAccess VK_ACCESS_SHADER_WRITE_BIT ≠ 0 then
        { s with m_warnings := s.m_warnings ++
          ["Potential write-after-write hazard detected"] }
      else s
    if srcStage = 0 ∨ dstStage = 0 then
      { s₁ with m_errors := s₁.m_errors ++
        ["Pipeline barrier has invalid stage flags"] }
    else s₁

/-- Model of `ComputeShaderDebugger::DebugStatistics` (header): aggregate report.
The two `unordered_map` members are modelled as association lists. -/
structure DebugStatistics where
  totalDispatches : Nat
  totalBufferBytes : Nat
  totalImagePixels : Nat
  averageDispatchTimeMs : ℚ
  dispatchCounts : List (String × Nat)
  shaderTimings : List (String × ℚ)
  deriving DecidableEq, Repr

/-- The per-dispatch duration `getStatistics` computes:
`duration_cast<microseconds>(endTime - startTime).count() / 1000.0`,
modelled exactly over `ℚ` with times already held in microseconds. -/
def dispatchDurationMs (d : ComputeDispatchInfo) : ℚ :=
  ((d.endTime - d.startTime : Int) : ℚ) / 1000

/-- Model of `ComputeShaderDebugger::getStatistics`: `stats` is value-initialised,
the tracked tables are summed unconditionally, and the average/per-shader
aggregation runs only when the dispatch history is non-empty. -/
def getStatistics (s : DebuggerState) : DebugStatistics :=
  let base : DebugStatistics :=
    { totalDispatches := s.m_dispatchHistory.length,
      totalBufferBytes := (s.m_trackedBuffers.map (fun p => p.2.size)).sum,
      totalImagePixels := (s.m_trackedImages.map (fun p =>
        p.2.extent.width * p.2.extent.height * p.2.extent.depth)).sum,
      averageDispatchTimeMs := 0,
      dispatchCounts := [],
      shaderTimings := [] }
  if s.m_dispatchHistory.isEmpty then base
  else
    let folded := s.m_dispatchHistory.foldl
      (fun (acc : ℚ × List (String × Nat) × List (String × ℚ)) d =>
        let dur := dispatchDurationMs d
        (acc.1 + dur,
         mapInsert acc.2.1 d.shaderName (mapGetD acc.2.1 d.shaderName 0 + 1),
         mapInsert acc.2.2 d.shaderName (mapGetD acc.2.2 d.shaderName 0 + dur)))
      (0, [], [])
    { base with
      averageDispatchTimeMs := folded.1 / (s.m_dispatchHistory.length : ℚ),
      dispatchCounts := folded.2.1,
      shaderTimings := folded.2.2 }

/-- A `beginDispatch`/`endDispatch` call, for reasoning about arbitrary
call sequences against the debugger. -/
inductive DispatchOp where
  | beginD (shaderName : String) (gx gy gz : Nat) (now : Int)
  | endD (now : Int)
  deriving DecidableEq, Repr

/-- Apply one `beginDispatch`/`endDispatch` call to a debugger state. -/
def applyDispatchOp (s : DebuggerState) : DispatchOp → DebuggerState
  | .beginD shaderName gx gy gz now => beginDispatch s shaderName gx gy gz now
  | .endD now => endDispatch s now

/-- Run a sequence of `beginDispatch`/`endDispatch` calls left to right. -/
def runDispatchOps (s : DebuggerState) : List DispatchOp → DebuggerState
  | [] => s
  | op :: rest => runDispatchOps (applyDispatchOp s op) rest

end ComputeShaderDebugger

/-- Model of `VulkanContext::endSingleTimeCommands`: ends, submits and frees the
command buffer. The function returns `void` and never inspects the
`VkResult` values produced by `vkQueueSubmit` and `vkQueueWaitIdle`; both
device results are discarded, whatever they are. -/
def VulkanContext.endSingleTimeCommands (_submitResult _waitResult : Int) : Unit :=
  ()

/-- The read/write wiring of one descriptor set: which generation-buffer
index its binding 0 (read source) and binding 1 (write target) point at. -/
structure DescriptorSetWiring where
  binding0Buffer : Nat
  binding1Buffer : Nat
  deriving DecidableEq, Repr

/-- The host-visible state of a `GameOfLife3D` instance: grid dimensions,
the ping-pong index, the host grid mirror, and the (fixed) wiring of the
two descriptor sets. -/
structure GameOfLife3DState where
  gridSizeX : Nat
  gridSizeY : Nat
  gridSizeZ : Nat
  currentBuffer : Nat
  gridState : List Nat
  descriptorSet0 : DescriptorSetWiring
  descriptorSet1 : DescriptorSetWiring
  deriving DecidableEq, Repr

namespace GameOfLife3D

/-- Model of `GameOfLife3D::GameOfLife3D` followed by `GameOfLife3D::init`: the
constructor sets `currentBuffer = 0`; `init` stores the dimensions,
zero-fills the host grid to `sizeX*sizeY*sizeZ` cells, and
`createDescriptorSets` wires set `i` as binding 0 → `gridBuffers[i]`,
binding 1 → `gridBuffers[1-i]`. -/
def init (gridSizeX gridSizeY gridSizeZ : Nat) : GameOfLife3DState :=
  { gridSizeX := gridSizeX, gridSizeY := gridSizeY, gridSizeZ := gridSizeZ,
    currentBuffer := 0,
    gridState := List.replicate (gridSizeX * gridSizeY * gridSizeZ) 0,
    descriptorSet0 := { binding0Buffer := 0, binding1Buffer := 1 },
    descriptorSet1 := { binding0Buffer := 1, binding1Buffer := 0 } }

/-- The commands `GameOfLife3D::recordComputeCommands` records into the
command buffer: which descriptor set is bound, the push constants, and the
dispatch group counts (ceiling division of each dimension by 8). -/
structure RecordedComputeCommands where
  boundDescriptorSetIndex : Nat
  pushConstants : Nat × Nat × Nat
  groupCountX : Nat
  groupCountY : Nat
  groupCountZ : Nat
  deriving DecidableEq, Repr

/-- Model of `GameOfLife3D::recordComputeCommands`: binds `descriptorSets[currentBuffer]`,
pushes the grid dimensions, and dispatches `(d + 7) / 8` groups per axis.
Pure observation of the state; mutates nothing host-side. -/
def recordComputeCommands (g : GameOfLife3DState) : RecordedComputeCommands :=
  { boundDescriptorSetIndex := g.currentBuffer,
    pushConstants := (g.gridSizeX, g.gridSizeY, g.gridSizeZ),
    groupCountX := (g.gridSizeX + 7) / 8,
    groupCountY := (g.gridSizeY + 7) / 8,
    groupCountZ := (g.gridSizeZ + 7) / 8 }

/-- Model of `GameOfLife3D::swapBuffers`: `currentBuffer = 1 - currentBuffer`. -/
def swapBuffers (g : GameOfLife3DState) : GameOfLife3DState :=
  { g with currentBuffer := 1 - g.currentBuffer }

/-- Model of `GameOfLife3D::update`: records the compute commands, submits them via
`VulkanContext::endSingleTimeCommands` (whose device results are taken as
parameters here and discarded, exactly as the source discards them), then
unconditionally calls `swapBuffers`. -/
def update (g : GameOfLife3DState) (submitResult waitResult : Int) :
    GameOfLife3DState :=
  let _recorded := recordComputeCommands g
  let _unit := VulkanContext.endSingleTimeCommands submitResult waitResult
  swapBuffers g

/-- Model of `GameOfLife3D::setCell`: returns early when any coordinate is out of
bounds; otherwise writes `state` at `x + y*sizeX + z*sizeX*sizeY` in the
host grid mirror. -/
def setCell (g : GameOfLife3DState) (x y z state : Nat) : GameOfLife3DState :=
  if x ≥ g.gridSizeX ∨ y ≥ g.gridSizeY ∨ z ≥ g.gridSizeZ then g
  else
    { g with gridState :=
        (g.gridState.set (x + y * g.gridSizeX + z * g.gridSizeX * g.gridSizeY)
          state) }

/-- Model of `GameOfLife3D::reset`: `std::fill` of the host grid mirror with 0. -/
def reset (g : GameOfLife3DState) : GameOfLife3DState :=
  { g with gridState := g.gridState.map (fun _ => 0) }

/-- Model of `GameOfLife3D::getGridState`: returns the host grid mirror. -/
def getGridState (g : GameOfLife3DState) : List Nat :=
  g.gridState

/-- A public mutating call on `GameOfLife3D` after `init`, for reasoning
about arbitrary call sequences. -/
inductive GolOp where
  | updateOp (submitResult waitResult : Int)
  | setCellOp (x y z state : Nat)
  | resetOp
  deriving DecidableEq, Repr

/-- Apply one public call to a `GameOfLife3D` state. -/
def applyGolOp (g : GameOfLife3DState) : GolOp → GameOfLife3DState
  | .updateOp submitResult waitResult => update g submitResult waitResult
  | .setCellOp x y z state => setCell g x y z state
  | .resetOp => reset g

/-- Run a sequence of public calls left to right. -/
def runGolOps (g : GameOfLife3DState) : List GolOp → GameOfLife3DState
  | [] => g
  | op :: rest => runGolOps (applyGolOp g op) rest

/-- Runs `n` consecutive successful `update` calls (device results `VK_SUCCESS`). -/
def steps (g : GameOfLife3DState) : Nat → GameOfLife3DState
  | 0 => g
  | n + 1 => update (steps g n) VK_SUCCESS VK_SUCCESS

end GameOfLife3D

/-! Helper lemmas shared by the claim theorems. -/

theorem applyGolOp_descriptorSet0 (g : GameOfLife3DState) (op : GameOfLife3D.GolOp) :
    (GameOfLife3D.applyGolOp g op).descriptorSet0 = g.descriptorSet0 := by
  cases op with
  | updateOp r w => rfl
  | setCellOp x y z st =>
    simp only [GameOfLife3D.applyGolOp, GameOfLife3D.setCell]
    split <;> rfl
  | resetOp => rfl

theorem applyGolOp_descriptorSet1 (g : GameOfLife3DState) (op : GameOfLife3D.GolOp) :
    (GameOfLife3D.applyGolOp g op).descriptorSet1 = g.descriptorSet1 := by
  cases op with
  | updateOp r w => rfl
  | setCellOp x y z st =>
    simp only [GameOfLife3D.applyGolOp, GameOfLife3D.setCell]
    split <;> rfl
  | resetOp => rfl

theorem runGolOps_descriptorSet0 (g : GameOfLife3DState) (ops : List GameOfLife3D.GolOp) :
    (GameOfLife3D.runGolOps g ops).descriptorSet0 = g.descriptorSet0 := by
  induction ops generalizing g with
  | nil => rfl
  | cons op rest ih =>
    exact (ih (GameOfLife3D.applyGolOp g op)).trans (applyGolOp_descriptorSet0 g op)

theorem runGolOps_descriptorSet1 (g : GameOfLife3DState) (ops : List GameOfLife3D.GolOp) :
    (GameOfLife3D.runGolOps g ops).descriptorSet1 = g.descriptorSet1 := by
  induction ops generalizing g with
  | nil => rfl
  | cons op rest ih =>
    exact (ih (GameOfLife3D.applyGolOp g op)).trans (applyGolOp_descriptorSet1 g op)

theorem natDiv8_eq_ceil (d : Nat) : (((d + 7) / 8 : Nat) : ℤ) = ⌈(d : ℚ) / 8⌉ := by
  obtain ⟨q, hq⟩ : ∃ q, q = (d + 7) / 8 := ⟨_, rfl⟩
  rw [← hq, eq_comm, Int.ceil_eq_iff]
  have h1 : d ≤ 8 * q := by omega
  have h2 : 8 * q < d + 8 := by omega
  constructor
  · rw [lt_div_iff₀ (show (0 : ℚ) < 8 by norm_num)]
    have h2q : 8 * (q : ℚ) < (d : ℚ) + 8 := by exact_mod_cast h2
    push_cast
    linarith
  · rw [div_le_iff₀ (show (0 : ℚ) < 8 by norm_num)]
    have h1q : (d : ℚ) ≤ 8 * (q : ℚ) := by exact_mod_cast h1
    push_cast
    linarith

theorem linearIndex_lt (x y z X Y Z : Nat) (hx : x < X) (hy : y < Y) (hz : z < Z) :
    x + y * X + z * X * Y < X * Y * Z := by
  have e3 : X * Y * (z + 1) ≤ X * Y * Z := Nat.mul_le_mul (Nat.le_refl (X * Y)) hz
  have e2 : X * (y + 1) ≤ X * Y := Nat.mul_le_mul (Nat.le_refl X) hy
  nlinarith [e3, e2, hx]

/-- A debugger state with the debugger disabled and buffer handle 5 tracked,
reached through the public interface: construct, track buffer 5, disable. -/
def disabledWithTracked : DebuggerState :=
  ComputeShaderDebugger.setEnabled
    (ComputeShaderDebugger.trackBuffer ComputeShaderDebugger.construct 5 1024
      "gridBuffer0" 7)
    false

theorem beginDispatch_history (s : DebuggerState) (n : String) (gx gy gz : Nat)
    (now : Int) :
    (ComputeShaderDebugger.beginDispatch s n gx gy gz now).m_dispatchHistory =
      s.m_dispatchHistory := by
  simp only [ComputeShaderDebugger.beginDispatch]
  split <;> rfl

theorem endDispatch_history_le (s : DebuggerState) (now : Int)
    (h : s.m_dispatchHistory.length ≤ 1000) :
    (ComputeShaderDebugger.endDispatch s now).m_dispatchHistory.length ≤ 1000 := by
  by_cases hg : (!s.m_enabled || !s.m_inDispatch) = true
  · unfold ComputeShaderDebugger.endDispatch
    rw [if_pos hg]
    exact h
  · unfold ComputeShaderDebugger.endDispatch
    rw [if_neg hg]
    simp only [List.length_append, List.length_cons, List.length_nil]
    split
    · simp only [List.length_drop, List.length_append, List.length_cons,
        List.length_nil]
      omega
    · rename_i hle
      simp only [List.length_append, List.length_cons, List.length_nil] at hle ⊢
      omega

theorem applyDispatchOp_history_le (s : DebuggerState)
    (op : ComputeShaderDebugger.DispatchOp)
    (h : s.m_dispatchHistory.length ≤ 1000) :
    (ComputeShaderDebugger.applyDispatchOp s op).m_dispatchHistory.length ≤ 1000 := by
  cases op with
  | beginD n gx gy gz now =>
    simp only [ComputeShaderDebugger.applyDispatchOp]
    rw [beginDispatch_history]
    exact h
  | endD now => exact endDispatch_history_le s now h

theorem runDispatchOps_history_le (ops : List ComputeShaderDebugger.DispatchOp)
    (s : DebuggerState) (h : s.m_dispatchHistory.length ≤ 1000) :
    (ComputeShaderDebugger.runDispatchOps s ops).m_dispatchHistory.length ≤ 1000 := by
  induction ops generalizing s with
  | nil => exact h
  | cons op rest ih =>
    exact ih (ComputeShaderDebugger.applyDispatchOp s op)
      (applyDispatchOp_history_le s op h)

theorem endDispatch_full_fifo (s : DebuggerState) (now : Int)
    (h₁ : s.m_enabled = true) (h₂ : s.m_inDispatch = true)
    (h₃ : s.m_dispatchHistory.length = 1000) :
    (ComputeShaderDebugger.endDispatch s now).m_dispatchHistory =
      s.m_dispatchHistory.drop 1 ++
        [{ s.m_currentDispatch with endTime := now }] := by
  simp only [ComputeShaderDebugger.endDispatch, h₁, h₂, Bool.not_true,
    Bool.or_self, Bool.false_eq_true, if_false]
  have hlen : (s.m_dispatchHistory ++
      [{ s.m_currentDispatch with endTime := now }]).length > 1000 := by
    simp [h₃]
  rw [if_pos hlen, List.drop_append_of_le_length (by omega)]

/-- A debugger state whose dispatch history is already at the 1000-entry
capacity, with a dispatch open. -/
def fullHistoryState : DebuggerState :=
  { ComputeShaderDebugger.construct with
      m_inDispatch := true,
      m_dispatchHistory :=
        List.replicate 1000 ComputeShaderDebugger.emptyDispatch }

/-! Claim theorems. -/

/-- C2: the claim says a failed per-step submission or wait is reported to
the caller of `step()` as a `DispatchFailure` and that the buffer-index flip
does not occur for that failed step. The code does the opposite:
`GameOfLife3D::update` is `void`, `VulkanContext::endSingleTimeCommands`
discards the `VkResult` values of `vkQueueSubmit`/`vkQueueWaitIdle`, and
`swapBuffers()` runs unconditionally — so on a device failure the update is
indistinguishable from a successful one and the flip still happens. -/
theorem update_swallows_device_failure (g : GameOfLife3DState) :
    GameOfLife3D.update g VK_ERROR_DEVICE_LOST VK_ERROR_DEVICE_LOST =
      GameOfLife3D.swapBuffers g ∧
    (GameOfLife3D.update g VK_ERROR_DEVICE_LOST VK_ERROR_DEVICE_LOST).currentBuffer =
      1 - g.currentBuffer ∧
    (∀ submitResult waitResult : Int,
      GameOfLife3D.update g submitResult waitResult =
        GameOfLife3D.update g VK_SUCCESS VK_SUCCESS) :=
  ⟨rfl, rfl, fun _ _ => rfl⟩

/-- C5: starting from `currentBuffer = 0` at construction, after `n`
successful `update()` calls the current buffer index equals `n mod 2`, and
it is always 0 or 1. -/
theorem steps_currentBuffer (x y z n : Nat) :
    (GameOfLife3D.steps (GameOfLife3D.init x y z) n).currentBuffer = n % 2 ∧
    ((GameOfLife3D.steps (GameOfLife3D.init x y z) n).currentBuffer = 0 ∨
      (GameOfLife3D.steps (GameOfLife3D.init x y z) n).currentBuffer = 1) := by
  have main : ∀ m,
      (GameOfLife3D.steps (GameOfLife3D.init x y z) m).currentBuffer = m % 2 := by
    intro m
    induction m with
    | zero => rfl
    | succ k ih =>
      have hstep : (GameOfLife3D.steps (GameOfLife3D.init x y z) (k + 1)).currentBuffer =
          1 - (GameOfLife3D.steps (GameOfLife3D.init x y z) k).currentBuffer := rfl
      rw [hstep, ih]
      omega
  refine ⟨main n, ?_⟩
  rw [main n]
  omega

/-- C6: after initialization, descriptor set 0 is wired as binding 0 →
buffer 0 (read source) and binding 1 → buffer 1 (write target), descriptor
set 1 the other way round; no public operation sequence ever mutates this
wiring, and at dispatch time only the index of the set that gets bound
(`currentBuffer`) changes. -/
theorem descriptorSets_fixed_wiring (x y z : Nat) (ops : List GameOfLife3D.GolOp) :
    (GameOfLife3D.runGolOps (GameOfLife3D.init x y z) ops).descriptorSet0 =
      { binding0Buffer := 0, binding1Buffer := 1 } ∧
    (GameOfLife3D.runGolOps (GameOfLife3D.init x y z) ops).descriptorSet1 =
      { binding0Buffer := 1, binding1Buffer := 0 } ∧
    (GameOfLife3D.recordComputeCommands
        (GameOfLife3D.runGolOps (GameOfLife3D.init x y z) ops)).boundDescriptorSetIndex =
      (GameOfLife3D.runGolOps (GameOfLife3D.init x y z) ops).currentBuffer :=
  ⟨runGolOps_descriptorSet0 (GameOfLife3D.init x y z) ops,
   runGolOps_descriptorSet1 (GameOfLife3D.init x y z) ops,
   rfl⟩

/-- C8: the dispatch group count computed by `recordComputeCommands` along
each axis is the ceiling of the grid dimension divided by the fixed
workgroup size 8; in particular it is 13 for dimension 100 and 8 for
dimension 64. -/
theorem recordComputeCommands_groupCounts (g : GameOfLife3DState) :
    (((GameOfLife3D.recordComputeCommands g).groupCountX : ℤ) =
        ⌈(g.gridSizeX : ℚ) / 8⌉ ∧
      ((GameOfLife3D.recordComputeCommands g).groupCountY : ℤ) =
        ⌈(g.gridSizeY : ℚ) / 8⌉ ∧
      ((GameOfLife3D.recordComputeCommands g).groupCountZ : ℤ) =
        ⌈(g.gridSizeZ : ℚ) / 8⌉) ∧
    (GameOfLife3D.recordComputeCommands (GameOfLife3D.init 100 100 100)).groupCountX = 13 ∧
    (GameOfLife3D.recordComputeCommands (GameOfLife3D.init 64 64 64)).groupCountX = 8 :=
  ⟨⟨natDiv8_eq_ceil g.gridSizeX, natDiv8_eq_ceil g.gridSizeY,
    natDiv8_eq_ceil g.gridSizeZ⟩, rfl, rfl⟩

/-- C1 counterexample: the claim says that with the debugger disabled every
listed operation, `untrackBuffer` included, leaves the tracked-resource
tables unchanged. At the concrete disabled state `disabledWithTracked`
(buffer handle 5 tracked, then `setEnabled false`), `untrackBuffer 5`
removes the entry: the tracked-buffer table goes from a singleton to empty,
so the claim as stated is false. -/
theorem untrackBuffer_disabled_not_noop :
    disabledWithTracked.m_enabled = false ∧
    disabledWithTracked.m_trackedBuffers =
      [(5, { size := 1024, name := "gridBuffer0", lastAccessTime := 7 })] ∧
    (ComputeShaderDebugger.untrackBuffer disabledWithTracked 5).m_trackedBuffers =
      [] := by
  refine ⟨rfl, rfl, rfl⟩

/-- C1 (amended): when the debugger is disabled, `trackBuffer`, `trackImage`,
`beginDispatch`, `endDispatch`, `insertTimestamp`, the three barrier
validators and `checkSynchronizationHazards` are no-ops on the whole
debugger state (tracked tables, dispatch history, timestamp markers and
message ledgers included) and the validators return `true`; `untrackBuffer`
and `untrackImage`, however, carry no enabled-flag guard in the source and
still erase the given handle from the tracked tables while disabled. -/
theorem disabled_debugger_noops (s : DebuggerState) (h : s.m_enabled = false)
    (buffer image size format gx gy gz srcStage dstStage srcAccess dstAccess : Nat)
    (extent : Extent3D) (name : String) (now : Int) (mb : MemoryBarrier)
    (bb : BufferMemoryBarrier) (ib : ImageMemoryBarrier) :
    ComputeShaderDebugger.trackBuffer s buffer size name now = s ∧
    ComputeShaderDebugger.trackImage s image extent format name now = s ∧
    ComputeShaderDebugger.beginDispatch s name gx gy gz now = s ∧
    ComputeShaderDebugger.endDispatch s now = s ∧
    ComputeShaderDebugger.insertTimestamp s name = s ∧
    ComputeShaderDebugger.validateMemoryBarrier s mb = (true, s) ∧
    ComputeShaderDebugger.validateBufferMemoryBarrier s bb = (true, s) ∧
    ComputeShaderDebugger.validateImageMemoryBarrier s ib = (true, s) ∧
    ComputeShaderDebugger.checkSynchronizationHazards s srcStage dstStage
      srcAccess dstAccess = s ∧
    ComputeShaderDebugger.untrackBuffer s buffer =
      { s with m_trackedBuffers := mapErase s.m_trackedBuffers buffer } ∧
    ComputeShaderDebugger.untrackImage s image =
      { s with m_trackedImages := mapErase s.m_trackedImages image } := by
  refine ⟨?_, ?_, ?_, ?_, ?_, ?_, ?_, ?_, ?_, rfl, rfl⟩ <;>
    simp [ComputeShaderDebugger.trackBuffer, ComputeShaderDebugger.trackImage,
      ComputeShaderDebugger.beginDispatch, ComputeShaderDebugger.endDispatch,
      ComputeShaderDebugger.insertTimestamp,
      ComputeShaderDebugger.validateMemoryBarrier,
      ComputeShaderDebugger.validateBufferMemoryBarrier,
      ComputeShaderDebugger.validateImageMemoryBarrier,
      ComputeShaderDebugger.checkSynchronizationHazards, h]

/-- Witness for the amended C1 theorem: instantiated at the concrete
disabled state `disabledWithTracked`. -/
theorem disabled_debugger_noops_witness :
    ComputeShaderDebugger.trackBuffer disabledWithTracked 9 64 "extra" 8 =
      disabledWithTracked ∧
    ComputeShaderDebugger.untrackBuffer disabledWithTracked 9 =
      { disabledWithTracked with
          m_trackedBuffers := mapErase disabledWithTracked.m_trackedBuffers 9 } := by
  have h := disabled_debugger_noops disabledWithTracked rfl 9 3 64 0 1 1 1 1 1 1 1
    ⟨1, 1, 1⟩ "extra" 8 ⟨0, 0⟩ ⟨0, 0, 1, 0, 4⟩ ⟨0, 0, 2⟩
  exact ⟨h.1, h.2.2.2.2.2.2.2.2.2.1⟩

/-- C3: for in-bounds coordinates, `setCell` followed by reading the host
grid mirror at linear index `x + y*sizeX + z*sizeX*sizeY` returns the set
value; for any out-of-bounds coordinate `setCell` leaves the whole engine
state unchanged and raises no error. -/
theorem setCell_readback (g : GameOfLife3DState) (x y z state : Nat)
    (hlen : g.gridState.length = g.gridSizeX * g.gridSizeY * g.gridSizeZ) :
    (x < g.gridSizeX → y < g.gridSizeY → z < g.gridSizeZ →
      (GameOfLife3D.setCell g x y z state).gridState[x + y * g.gridSizeX +
        z * g.gridSizeX * g.gridSizeY]? = some state) ∧
    (g.gridSizeX ≤ x ∨ g.gridSizeY ≤ y ∨ g.gridSizeZ ≤ z →
      GameOfLife3D.setCell g x y z state = g) := by
  constructor
  · intro hx hy hz
    have hidx : x + y * g.gridSizeX + z * g.gridSizeX * g.gridSizeY <
        g.gridState.length := by
      rw [hlen]
      exact linearIndex_lt x y z g.gridSizeX g.gridSizeY g.gridSizeZ hx hy hz
    have hcond : ¬(x ≥ g.gridSizeX ∨ y ≥ g.gridSizeY ∨ z ≥ g.gridSizeZ) := by
      push_neg
      exact ⟨hx, hy, hz⟩
    simp only [GameOfLife3D.setCell, if_neg hcond]
    exact List.getElem?_set_self hidx
  · intro hout
    simp only [GameOfLife3D.setCell]
    rw [if_pos hout]

/-- Witness for the C3 theorem: a 2×3×4 grid; the in-bounds write at
(1,2,2) lands at linear index 17, and the write at out-of-bounds (1,2,9)
leaves the state unchanged. -/
theorem setCell_readback_witness :
    (GameOfLife3D.setCell (GameOfLife3D.init 2 3 4) 1 2 2 7).gridState[17]? =
      some 7 ∧
    GameOfLife3D.setCell (GameOfLife3D.init 2 3 4) 1 2 9 7 =
      GameOfLife3D.init 2 3 4 := by
  have h₁ := (setCell_readback (GameOfLife3D.init 2 3 4) 1 2 2 7 (by decide)).1
    (by decide) (by decide) (by decide)
  have h₂ := (setCell_readback (GameOfLife3D.init 2 3 4) 1 2 9 7 (by decide)).2
    (Or.inr (Or.inr (by decide)))
  exact ⟨h₁, h₂⟩

/-- C9: for in-bounds coordinates, `setCell` modifies only the single cell
at linear index `x + y*sizeX + z*sizeX*sizeY`: every other cell of the host
grid mirror, the grid dimensions, the current buffer index (and the
descriptor-set wiring) are unchanged. -/
theorem setCell_frame (g : GameOfLife3DState) (x y z state : Nat)
    (hx : x < g.gridSizeX) (hy : y < g.gridSizeY) (hz : z < g.gridSizeZ) :
    (GameOfLife3D.setCell g x y z state).gridSizeX = g.gridSizeX ∧
    (GameOfLife3D.setCell g x y z state).gridSizeY = g.gridSizeY ∧
    (GameOfLife3D.setCell g x y z state).gridSizeZ = g.gridSizeZ ∧
    (GameOfLife3D.setCell g x y z state).currentBuffer = g.currentBuffer ∧
    (GameOfLife3D.setCell g x y z state).descriptorSet0 = g.descriptorSet0 ∧
    (GameOfLife3D.setCell g x y z state).descriptorSet1 = g.descriptorSet1 ∧
    (GameOfLife3D.setCell g x y z state).gridState.length = g.gridState.length ∧
    ∀ j, j ≠ x + y * g.gridSizeX + z * g.gridSizeX * g.gridSizeY →
      (GameOfLife3D.setCell g x y z state).gridState[j]? = g.gridState[j]? := by
  have hcond : ¬(x ≥ g.gridSizeX ∨ y ≥ g.gridSizeY ∨ z ≥ g.gridSizeZ) := by
    push_neg
    exact ⟨hx, hy, hz⟩
  have hset : GameOfLife3D.setCell g x y z state =
      { g with gridState :=
          (g.gridState.set (x + y * g.gridSizeX + z * g.gridSizeX * g.gridSizeY)
            state) } := by
    simp only [GameOfLife3D.setCell, if_neg hcond]
  rw [hset]
  refine ⟨rfl, rfl, rfl, rfl, rfl, rfl, List.length_set .., fun j hj => ?_⟩
  exact List.getElem?_set_ne (fun he => hj he.symm)

/-- Witness for the C9 theorem: on the 2×3×4 grid, writing at (1,2,2)
(linear index 17) leaves the current buffer index and cell 0 unchanged. -/
theorem setCell_frame_witness :
    (GameOfLife3D.setCell (GameOfLife3D.init 2 3 4) 1 2 2 7).currentBuffer =
      (GameOfLife3D.init 2 3 4).currentBuffer ∧
    (GameOfLife3D.setCell (GameOfLife3D.init 2 3 4) 1 2 2 7).gridState[0]? =
      (GameOfLife3D.init 2 3 4).gridState[0]? := by
  have h := setCell_frame (GameOfLife3D.init 2 3 4) 1 2 2 7 (by decide)
    (by decide) (by decide)
  exact ⟨h.2.2.2.1, h.2.2.2.2.2.2.2 0 (by decide)⟩

/-- C4: after any sequence of `beginDispatch`/`endDispatch` calls from the
constructed state, the dispatch history holds at most 1000 records; and when
a completed record is appended to a full (1000-entry) history, the evicted
record is exactly the oldest one — the new history is the old one minus its
front entry, with the completed record appended (FIFO order preserved). -/
theorem dispatchHistory_bounded_and_fifo
    (ops : List ComputeShaderDebugger.DispatchOp) (s : DebuggerState)
    (now : Int) (h₁ : s.m_enabled = true) (h₂ : s.m_inDispatch = true)
    (h₃ : s.m_dispatchHistory.length = 1000) :
    (ComputeShaderDebugger.runDispatchOps ComputeShaderDebugger.construct
      ops).m_dispatchHistory.length ≤ 1000 ∧
    (ComputeShaderDebugger.endDispatch s now).m_dispatchHistory =
      s.m_dispatchHistory.drop 1 ++
        [{ s.m_currentDispatch with endTime := now }] :=
  ⟨runDispatchOps_history_le ops ComputeShaderDebugger.construct (by decide),
   endDispatch_full_fifo s now h₁ h₂ h₃⟩

/-- Witness for the C4 theorem: a begin/end pair from the constructed state,
and the FIFO eviction at the concrete full-capacity state. -/
theorem dispatchHistory_bounded_and_fifo_witness :
    (ComputeShaderDebugger.runDispatchOps ComputeShaderDebugger.construct
      [ComputeShaderDebugger.DispatchOp.beginD "game_of_life_3d" 13 13 13 0,
       ComputeShaderDebugger.DispatchOp.endD 2]).m_dispatchHistory.length ≤ 1000 ∧
    (ComputeShaderDebugger.endDispatch fullHistoryState 3).m_dispatchHistory =
      fullHistoryState.m_dispatchHistory.drop 1 ++
        [{ fullHistoryState.m_currentDispatch with endTime := 3 }] :=
  dispatchHistory_bounded_and_fifo
    [ComputeShaderDebugger.DispatchOp.beginD "game_of_life_3d" 13 13 13 0,
     ComputeShaderDebugger.DispatchOp.endD 2]
    fullHistoryState 3 rfl rfl
    (by simp only [fullHistoryState, List.length_replicate])

/-- C7: with the debugger enabled, validating a buffer barrier whose target
handle is null returns `false` and appends exactly one error (warnings
untouched); validating a buffer barrier with a non-null handle but zero
size, or a memory barrier with both access masks empty, returns `true` and
appends exactly one warning (errors untouched). -/
theorem validateBarrier_messages (s : DebuggerState) (h : s.m_enabled = true)
    (bbNull bbZero : BufferMemoryBarrier) (mb : MemoryBarrier)
    (hNull : bbNull.buffer = 0) (hnz : bbZero.buffer ≠ 0)
    (hsz : bbZero.size = 0) (hm₁ : mb.srcAccessMask = 0)
    (hm₂ : mb.dstAccessMask = 0) :
    ComputeShaderDebugger.validateBufferMemoryBarrier s bbNull =
      (false, { s with m_errors :=
        (s.m_errors ++ ["Buffer memory barrier has VK_NULL_HANDLE buffer"]) }) ∧
    ComputeShaderDebugger.validateBufferMemoryBarrier s bbZero =
      (true, { s with m_warnings :=
        (s.m_warnings ++ ["Buffer memory barrier has size of 0"]) }) ∧
    ComputeShaderDebugger.validateMemoryBarrier s mb =
      (true, { s with m_warnings := (s.m_warnings ++
        ["Memory barrier has both srcAccessMask and dstAccessMask set to 0"]) }) := by
  refine ⟨?_, ?_, ?_⟩ <;>
    simp [ComputeShaderDebugger.validateBufferMemoryBarrier,
      ComputeShaderDebugger.validateMemoryBarrier, h, hNull, hnz, hsz, hm₁, hm₂]

/-- Witness for the C7 theorem at the constructed (enabled) state, with a
null-handle barrier, a zero-size barrier on handle 7, and an empty-mask
memory barrier. -/
theorem validateBarrier_messages_witness :
    (ComputeShaderDebugger.validateBufferMemoryBarrier
      ComputeShaderDebugger.construct ⟨0, 0, 0, 0, 4⟩).1 = false ∧
    (ComputeShaderDebugger.validateBufferMemoryBarrier
      ComputeShaderDebugger.construct ⟨0, 0, 7, 0, 0⟩).1 = true ∧
    (ComputeShaderDebugger.validateMemoryBarrier
      ComputeShaderDebugger.construct ⟨0, 0⟩).1 = true := by
  have h := validateBarrier_messages ComputeShaderDebugger.construct rfl
    ⟨0, 0, 0, 0, 4⟩ ⟨0, 0, 7, 0, 0⟩ ⟨0, 0⟩ rfl (by decide) rfl rfl rfl
  refine ⟨?_, ?_, ?_⟩
  · rw [h.1]
  · rw [h.2.1]
  · rw [h.2.2]

/-- C10: `getStatistics` on an empty dispatch history — whatever the
tracked-resource tables hold — returns zero total dispatches, zero average
dispatch time (no division happens), and empty per-shader count and timing
maps; the tracked-table byte/pixel sums are still computed. -/
theorem getStatistics_empty_history (s : DebuggerState)
    (h : s.m_dispatchHistory = []) :
    ComputeShaderDebugger.getStatistics s =
      { totalDispatches := 0,
        totalBufferBytes := ((s.m_trackedBuffers.map (fun p => p.2.size)).sum),
        totalImagePixels := ((s.m_trackedImages.map (fun p =>
          p.2.extent.width * p.2.extent.height * p.2.extent.depth)).sum),
        averageDispatchTimeMs := 0,
        dispatchCounts := [],
        shaderTimings := [] } := by
  simp [ComputeShaderDebugger.getStatistics, h]

/-- Witness for the C10 theorem: a state with one 1024-byte tracked buffer
and no dispatches yet. -/
theorem getStatistics_empty_history_witness :
    ComputeShaderDebugger.getStatistics
      (ComputeShaderDebugger.trackBuffer ComputeShaderDebugger.construct 5 1024
        "gridBuffer0" 7) =
      { totalDispatches := 0, totalBufferBytes := 1024, totalImagePixels := 0,
        averageDispatchTimeMs := 0, dispatchCounts := [], shaderTimings := [] } := by
  have h := getStatistics_empty_history
    (ComputeShaderDebugger.trackBuffer ComputeShaderDebugger.construct 5 1024
      "gridBuffer0" 7) rfl
  rw [h]
  rfl

end GolSpec
